import Mathlib

/-!
Verification of the claude-meet terminal scheduling client.

Shallow embedding of `src/claude_meet/cli.py` and `src/claude_meet/config.py`.
The process environment is modelled as a partial map from variable names to
string values; the fallback API-key file as a presence flag plus content
string; `sys.exit(1)` as a `none` result.  The Conversational Relay
(`claude_client.py`) and Calendar Gateway (`calendar_client.py`) are not
under `src/`, so those two definitions are modelled from the spec and say so
in their doc comments.
-/

namespace ClaudeMeet

/-- A process environment: `os.getenv` returns `none` for an unset variable. -/
abbrev Env := String → Option String

/-- `os.getenv(name, default)`: the value when set, else the default. -/
def getenvD (env : Env) (name default : String) : String :=
  (env name).getD default

/-- Drop leading and trailing whitespace characters from a character list. -/
def stripChars (l : List Char) : List Char :=
  ((l.dropWhile Char.isWhitespace).reverse.dropWhile Char.isWhitespace).reverse

/-- Python `str.strip()` restricted to ASCII whitespace, which is all that
occurs in keys and settings here. -/
def pyStrip (s : String) : String := ⟨stripChars s.toList⟩

/-- Python `str.lower()` (ASCII case fold, as used on user input and on the
boolean-valued settings). -/
def pyLower (s : String) : String := ⟨s.toList.map Char.toLower⟩

/-- Value of a nonempty run of decimal digits; `none` on empty input or any
non-digit character.  Helper for `pyInt?`. -/
def digitsVal? (l : List Char) : Option Nat :=
  match l with
  | [] => none
  | _ =>
    l.foldl
      (fun acc c =>
        match acc with
        | none => none
        | some n => if c.isDigit then some (10 * n + (c.toNat - 48)) else none)
      (some 0)

/-- Python `int(s)` on a string: surrounding whitespace stripped, optional
sign, then decimal digits; `none` models the `ValueError` it raises on
anything else. -/
def pyInt? (s : String) : Option Int :=
  match stripChars s.toList with
  | '+' :: rest => (digitsVal? rest).map Int.ofNat
  | '-' :: rest => (digitsVal? rest).map (fun n => -(n : Int))
  | l => (digitsVal? l).map Int.ofNat

/-- `config.Config`: the flat settings record built by `Config.__init__`.
The filesystem path attributes (`config_dir`, `token_path`,
`credentials_path`) are constants of the home directory and are elided. -/
structure Config where
  default_timezone : String
  business_hours_start : Int
  business_hours_end : Int
  default_duration : Int
  max_suggestions : Int
  prefer_morning : Bool
  avoid_lunch : Bool
  claude_model : String
  claude_max_tokens : Int
  debug : Bool
  log_level : String
deriving DecidableEq, Repr

/-- `config.Config.__init__` over an environment.  Each `int(...)` call is
`pyInt?`; a `none` result models the uncaught `ValueError` that aborts
construction when a set variable is not an integer literal. -/
def Config.init (env : Env) : Option Config := do
  let bhStart ← pyInt? (getenvD env "BUSINESS_HOURS_START" "9")
  let bhEnd ← pyInt? (getenvD env "BUSINESS_HOURS_END" "17")
  let dur ← pyInt? (getenvD env "DEFAULT_DURATION" "60")
  let maxSugg ← pyInt? (getenvD env "MAX_SUGGESTIONS" "5")
  let maxTok ← pyInt? (getenvD env "CLAUDE_MAX_TOKENS" "2000")
  some
    { default_timezone := getenvD env "TIMEZONE" "Europe/Berlin"
      business_hours_start := bhStart
      business_hours_end := bhEnd
      default_duration := dur
      max_suggestions := maxSugg
      prefer_morning := pyLower (getenvD env "PREFER_MORNING" "true") == "true"
      avoid_lunch := pyLower (getenvD env "AVOID_LUNCH" "true") == "true"
      claude_model := getenvD env "CLAUDE_MODEL" "claude-sonnet-4-20250514"
      claude_max_tokens := maxTok
      debug := pyLower (getenvD env "DEBUG" "false") == "true"
      log_level := getenvD env "LOG_LEVEL" "INFO" }

/-- The fallback branch of `cli.get_api_key`: read
`config/anthropic_apikey.txt` when it exists, return its stripped content if
nonempty. -/
def apiKeyFromFile (fileExists : Bool) (fileContent : String) : Option String :=
  if fileExists then
    let k := pyStrip fileContent
    if k = "" then none else some k
  else none

/-- `cli.get_api_key` over the environment and the fallback file.  A `none`
result models the error report plus `sys.exit(1)`.  Python truthiness of the
raw environment value decides the first branch, so a set-but-empty variable
falls through to the file. -/
def get_api_key (env : Env) (fileExists : Bool) (fileContent : String) :
    Option String :=
  match env "ANTHROPIC_API_KEY" with
  | some k =>
      if k = "" then apiKeyFromFile fileExists fileContent
      else some (pyStrip k)
  | none => apiKeyFromFile fileExists fileContent

/-- A calendar event as the vendor API reports it: summary, start and end
instants (already normalized to the configured timezone and compared as a
single linear time scale), attendee e-mail addresses, optional conferencing
link. -/
structure CalendarEvent where
  summary : String
  start : Int
  finish : Int
  attendees : List String
  meetLink : Option String
deriving DecidableEq, Repr

/-- Modelled from the spec: `calendar_client.py` (the Calendar Gateway) is
not under `src/`.  Per spec section 4.3, `listUpcoming(maxResults)` returns
the vendor-determined, chronologically ascending event sequence, at most
`maxResults` long, and an empty sequence when there are no events; the
gateway itself adds no reordering, so it is the ascending vendor sequence
truncated to `maxResults`. -/
def listUpcoming (vendorEvents : List CalendarEvent) (maxResults : Nat) :
    List CalendarEvent :=
  vendorEvents.take maxResults

/-- Render one event the way `cli.upcoming` prints it (summary line, start
line). -/
def renderEvent (e : CalendarEvent) : List String :=
  ["  - " ++ e.summary, "    " ++ toString e.start, ""]

/-- `cli.upcoming`: the command body after service initialization, over the
outcome of `calendar_client.get_upcoming_events` (error message on raised
exception).  Result is the printed lines paired with the process exit code. -/
def upcoming (fetched : Except String (List CalendarEvent)) :
    List String × Nat :=
  match fetched with
  | .error e => (["Error: " ++ e], 1)
  | .ok [] => (["No upcoming events found."], 0)
  | .ok events =>
      (("Upcoming " ++ toString events.length ++ " events:")
        :: events.flatMap renderEvent, 0)

/-- `cli.setup` with a `--timezone` argument, over a validity oracle for
`pytz.timezone` and the previously saved timezone state (the content of the
per-user settings file that `save_timezone` writes).  Result is the printed
lines paired with the saved state after the command.  ANSI styling and the
saved-file path echo are elided. -/
def setup (isValidTZ : String → Bool) (tz : String) (savedTZ : Option String) :
    List String × Option String :=
  if isValidTZ tz then
    (["Timezone set to: " ++ tz], some tz)
  else
    (["Invalid timezone: " ++ tz,
      "Use 'claude-meet setup' without arguments to see available options."],
     savedTZ)

/-- A message role in the ConversationHistory. -/
inductive Role
  | user
  | assistant
  | toolResult
deriving DecidableEq, Repr

/-- One ConversationHistory entry: a role-tagged text payload. -/
structure Message where
  role : Role
  content : String
deriving DecidableEq, Repr

/-- The ConversationHistory: an ordered sequence of messages. -/
abbrev History := List Message

/-- An LLM API reply: either a direct text reply or a request for one
calendar operation with model-supplied arguments. -/
inductive LlmReply
  | text (s : String)
  | toolCall (name : String) (args : String)
deriving DecidableEq, Repr

/-- Outcome of one relay turn: the response (or the raised exception message),
the ConversationHistory as of return (reflecting the in-place appends made
before any failure), and how many Calendar Gateway operations were invoked. -/
structure TurnResult where
  result : Except String String
  hist : History
  gatewayCalls : Nat
deriving Repr

/-- Modelled from the spec: `claude_client.py` (the Conversational Relay,
`ClaudeClient.process_message`) is not under `src/`.  Per spec section 4.4:
append the user text as a user message; send the history to the LLM; a text
reply is appended as an assistant message and returned; a calendar-operation
request invokes the gateway once, appends its result as a tool-result
message and resends the history for a final text reply; at most one such
round-trip is performed, so a second operation request ends the turn without
invoking the gateway again.  A raised exception carries the history as
appended so far; the failed operation result itself is never appended. -/
def process_message (llm : History → Except String LlmReply)
    (gateway : String → String → Except String String)
    (userInput : String) (hist : History) : TurnResult :=
  let h1 := hist ++ [⟨Role.user, userInput⟩]
  match llm h1 with
  | .error e => ⟨.error e, h1, 0⟩
  | .ok (.text r) => ⟨.ok r, h1 ++ [⟨Role.assistant, r⟩], 0⟩
  | .ok (.toolCall name args) =>
      match gateway name args with
      | .error e => ⟨.error e, h1, 1⟩
      | .ok res =>
          let h2 := h1 ++ [⟨Role.toolResult, res⟩]
          match llm h2 with
          | .error e => ⟨.error e, h2, 1⟩
          | .ok (.text r) => ⟨.ok r, h2 ++ [⟨Role.assistant, r⟩], 1⟩
          | .ok (.toolCall _ _) => ⟨.ok "", h2, 1⟩

/-- Whether the interactive loop continues to the next prompt or exits. -/
inductive StepKind
  | exited
  | continued
deriving DecidableEq, Repr

/-- Outcome of one iteration of the interactive chat loop. -/
structure ChatStep where
  kind : StepKind
  hist : History
  output : List String
deriving DecidableEq, Repr

/-- The help panel `cli._show_help` prints (box content elided: no claim
depends on its text). -/
def helpPanel : String := "Claude Calendar Scheduler help panel"

/-- One iteration of the `while True` loop of `cli.chat`, over the raw
prompt line.  `turn` abstracts `claude_client.process_message` called with
the current history; on an exception the loop prints the message and
continues, and the history reflects the appends the relay made in place
before raising.  ANSI styling and blank-line echoes are elided. -/
def chatLoopStep (currentTZ : String) (turn : String → History → TurnResult)
    (hist : History) (rawInput : String) : ChatStep :=
  if pyStrip rawInput = "" then ⟨.continued, hist, []⟩
  else
    let input := pyStrip rawInput
    if pyLower input ∈ ["exit", "quit", "q"] then
      ⟨.exited, hist, ["Goodbye! Have a productive day!"]⟩
    else if pyLower input = "help" then
      ⟨.continued, hist, [helpPanel]⟩
    else if pyLower input = "clear" then
      ⟨.continued, [], ["Conversation cleared."]⟩
    else if pyLower input ∈ ["config", "settings", "timezone"] then
      ⟨.continued, hist,
        ["Current timezone: " ++ currentTZ,
         "To change: exit and run 'claude-meet setup'"]⟩
    else
      let t := turn input hist
      match t.result with
      | .ok r => ⟨.continued, t.hist, ["Claude: " ++ r]⟩
      | .error e => ⟨.continued, t.hist, ["Error: " ++ e]⟩

/-! Helper lemmas (shared; not tied to any one claim). -/

theorem pyInt_nine : pyInt? "9" = some 9 := by decide

theorem pyInt_seventeen : pyInt? "17" = some 17 := by decide

theorem pyInt_sixty : pyInt? "60" = some 60 := by decide

theorem pyInt_five : pyInt? "5" = some 5 := by decide

theorem pyInt_twoThousand : pyInt? "2000" = some 2000 := by decide

/-- The configuration produced when no environment variable is set. -/
def defaultConfig : Config where
  default_timezone := "Europe/Berlin"
  business_hours_start := 9
  business_hours_end := 17
  default_duration := 60
  max_suggestions := 5
  prefer_morning := true
  avoid_lunch := true
  claude_model := "claude-sonnet-4-20250514"
  claude_max_tokens := 2000
  debug := false
  log_level := "INFO"

/-! Theorems for the claims. -/

/-- C5: when the `upcoming` command finds zero events, it prints the literal
message "No upcoming events found." and exits with code 0. -/
theorem upcoming_zero_events :
    upcoming (.ok []) = (["No upcoming events found."], 0) := rfl

/-- C9: when the corresponding environment variables are absent,
configuration loading returns the documented defaults: timezone
"Europe/Berlin", business hours 9 to 17, default meeting duration 60
minutes, and a suggestion cap of 5. -/
theorem config_env_absent_defaults (env : Env)
    (htz : env "TIMEZONE" = none)
    (hbs : env "BUSINESS_HOURS_START" = none)
    (hbe : env "BUSINESS_HOURS_END" = none)
    (hdur : env "DEFAULT_DURATION" = none)
    (hmax : env "MAX_SUGGESTIONS" = none)
    (cfg : Config) (hcfg : Config.init env = some cfg) :
    cfg.default_timezone = "Europe/Berlin" ∧ cfg.business_hours_start = 9 ∧
    cfg.business_hours_end = 17 ∧ cfg.default_duration = 60 ∧
    cfg.max_suggestions = 5 := by
  cases hmt : pyInt? ((env "CLAUDE_MAX_TOKENS").getD "2000") with
  | none =>
      simp [Config.init, getenvD, htz, hbs, hbe, hdur, hmax, hmt,
        pyInt_nine, pyInt_seventeen, pyInt_sixty, pyInt_five] at hcfg
  | some v =>
      simp [Config.init, getenvD, htz, hbs, hbe, hdur, hmax, hmt,
        pyInt_nine, pyInt_seventeen, pyInt_sixty, pyInt_five] at hcfg
      subst hcfg
      simp

theorem config_env_absent_defaults_witness :
    Config.init (fun _ => none) = some defaultConfig ∧
    (defaultConfig.default_timezone = "Europe/Berlin" ∧
      defaultConfig.business_hours_start = 9 ∧
      defaultConfig.business_hours_end = 17 ∧
      defaultConfig.default_duration = 60 ∧
      defaultConfig.max_suggestions = 5) :=
  ⟨by decide,
   config_env_absent_defaults (fun _ => none) rfl rfl rfl rfl rfl
     defaultConfig (by decide)⟩

/-- C4: if the API key is present only in the fallback config file (not in
the environment variable), loading the API key succeeds and returns the key
from that file; when the environment variable is set (to a nonempty value,
the only kind Python truthiness lets past), it takes precedence over the
file. -/
theorem api_key_fallback_and_precedence (env : Env) (fileContent k : String) :
    (env "ANTHROPIC_API_KEY" = none → pyStrip fileContent ≠ "" →
      get_api_key env true fileContent = some (pyStrip fileContent)) ∧
    (env "ANTHROPIC_API_KEY" = some k → k ≠ "" →
      ∀ fe fc, get_api_key env fe fc = some (pyStrip k)) := by
  constructor
  · intro h hne
    simp [get_api_key, h, apiKeyFromFile, hne]
  · intro h hk fe fc
    simp [get_api_key, h, hk]

theorem api_key_fallback_and_precedence_witness :
    get_api_key (fun _ => none) true " file-key " = some "file-key" ∧
    get_api_key (fun _ => some " env-key ") true " file-key " =
      some "env-key" := by
  constructor
  · have h :=
      (api_key_fallback_and_precedence (fun _ => none) " file-key " "x").1
        rfl (by decide)
    rw [show pyStrip " file-key " = "file-key" by decide] at h
    exact h
  · have h :=
      (api_key_fallback_and_precedence (fun _ => some " env-key ")
        " file-key " " env-key ").2 rfl (by decide) true " file-key "
    rw [show pyStrip " env-key " = "env-key" by decide] at h
    exact h

/-- C10: `get_api_key` strips surrounding whitespace from the key taken from
either source, and treats a fallback key file whose content is empty or
whitespace-only as absent, falling through to the missing-key error exit
(modelled as `none`) rather than returning an empty key. -/
theorem get_api_key_strips_and_blank_file_absent (env : Env) (k fc : String) :
    (env "ANTHROPIC_API_KEY" = some k → k ≠ "" →
      ∀ fe fc2, get_api_key env fe fc2 = some (pyStrip k)) ∧
    (env "ANTHROPIC_API_KEY" = none → pyStrip fc ≠ "" →
      get_api_key env true fc = some (pyStrip fc)) ∧
    (env "ANTHROPIC_API_KEY" = none → pyStrip fc = "" →
      get_api_key env true fc = none) := by
  refine ⟨?_, ?_, ?_⟩
  · intro h hk fe fc2
    simp [get_api_key, h, hk]
  · intro h hne
    simp [get_api_key, h, apiKeyFromFile, hne]
  · intro h hblank
    simp [get_api_key, h, apiKeyFromFile, hblank]

theorem get_api_key_strips_and_blank_file_absent_witness :
    get_api_key (fun _ => some "  padded-key  ") true "ignored" =
      some "padded-key" ∧
    get_api_key (fun _ => none) true "  trimmed  " = some "trimmed" ∧
    get_api_key (fun _ => none) true "   " = none := by
  refine ⟨?_, ?_, ?_⟩
  · have h :=
      (get_api_key_strips_and_blank_file_absent (fun _ => some "  padded-key  ")
        "  padded-key  " "x").1 rfl (by decide) true "ignored"
    rw [show pyStrip "  padded-key  " = "padded-key" by decide] at h
    exact h
  · have h :=
      (get_api_key_strips_and_blank_file_absent (fun _ => none) "x"
        "  trimmed  ").2.1 rfl (by decide)
    rw [show pyStrip "  trimmed  " = "trimmed" by decide] at h
    exact h
  · exact
      (get_api_key_strips_and_blank_file_absent (fun _ => none) "x"
        "   ").2.2 rfl (by decide)

/-- C6: for every invalid timezone string passed to `setup --timezone`, the
system reports an invalid-timezone error and the previously saved timezone
(if any) is left unchanged: the save operation is never invoked on the
invalid input. -/
theorem setup_invalid_timezone_preserves_saved
    (isValidTZ : String → Bool) (tz : String) (savedTZ : Option String)
    (h : isValidTZ tz = false) :
    (setup isValidTZ tz savedTZ).2 = savedTZ ∧
    (setup isValidTZ tz savedTZ).1.head? =
      some ("Invalid timezone: " ++ tz) := by
  simp [setup, h]

theorem setup_invalid_timezone_preserves_saved_witness :
    (setup (fun _ => false) "Foo/Bar" (some "Europe/Berlin")).2 =
      some "Europe/Berlin" ∧
    (setup (fun _ => false) "Foo/Bar" (some "Europe/Berlin")).1.head? =
      some "Invalid timezone: Foo/Bar" :=
  setup_invalid_timezone_preserves_saved (fun _ => false) "Foo/Bar"
    (some "Europe/Berlin") rfl

/-- C7: for every `--count N`, `listUpcoming` returns at most N events,
ordered chronologically ascending by start time (the vendor order it is
given), and an empty sequence when there are no events. -/
theorem listUpcoming_at_most_count_ordered
    (vendorEvents : List CalendarEvent) (N : Nat)
    (hsorted : vendorEvents.Pairwise (fun a b => a.start ≤ b.start)) :
    (listUpcoming vendorEvents N).length ≤ N ∧
    (listUpcoming vendorEvents N).Pairwise (fun a b => a.start ≤ b.start) ∧
    (vendorEvents = [] → listUpcoming vendorEvents N = []) := by
  refine ⟨?_, ?_, ?_⟩
  · exact List.length_take_le N vendorEvents
  · exact hsorted.sublist (List.take_sublist N vendorEvents)
  · intro h
    simp [listUpcoming, h]

/-- A pair of concrete events used by witnesses. -/
def eventA : CalendarEvent :=
  ⟨"standup", 100, 130, ["alice@example.com"], none⟩

/-- A second concrete event used by witnesses. -/
def eventB : CalendarEvent :=
  ⟨"review", 200, 260, ["bob@example.com"], some "meet.example"⟩

theorem listUpcoming_at_most_count_ordered_witness :
    (listUpcoming [eventA, eventB] 1).length ≤ 1 ∧
    (listUpcoming [eventA, eventB] 1).Pairwise
      (fun a b => a.start ≤ b.start) ∧
    ([eventA, eventB] = ([] : List CalendarEvent) →
      listUpcoming [eventA, eventB] 1 = []) :=
  listUpcoming_at_most_count_ordered [eventA, eventB] 1
    (by simp [eventA, eventB, List.Pairwise])

/-- C2: for every turn of the Conversational Relay, at most one
calendar-operation round-trip is performed: after the Calendar Gateway is
invoked once and its result is fed back to the LLM, the relay never invokes
a second calendar operation within the same user turn. -/
theorem process_message_at_most_one_gateway_call
    (llm : History → Except String LlmReply)
    (gateway : String → String → Except String String)
    (userInput : String) (hist : History) :
    (process_message llm gateway userInput hist).gatewayCalls ≤ 1 := by
  unfold process_message
  cases hllm : llm (hist ++ [⟨Role.user, userInput⟩]) with
  | error e => simp [hllm]
  | ok r =>
    cases r with
    | text s => simp [hllm]
    | toolCall n a =>
      cases hgw : gateway n a with
      | error e => simp [hllm, hgw]
      | ok res =>
        cases hllm2 :
            llm (hist ++ [⟨Role.user, userInput⟩, ⟨Role.toolResult, res⟩]) with
        | error e => simp [hllm, hgw, hllm2]
        | ok r2 => cases r2 <;> simp [hllm, hgw, hllm2]

/-- A relay stand-in used by witnesses: replies "A" without touching the
gateway. -/
def stubTurnA : String → History → TurnResult :=
  fun _ h => ⟨.ok "A", h, 0⟩

/-- A second relay stand-in used by witnesses: raises after appending the
user message. -/
def stubTurnB : String → History → TurnResult :=
  fun input h => ⟨.error "B", h ++ [⟨Role.user, input⟩], 1⟩

/-- An LLM stand-in whose API call raises, used by witnesses. -/
def failingLlm : History → Except String LlmReply := fun _ => .error "boom"

/-- A gateway stand-in that succeeds, used by witnesses. -/
def okGateway : String → String → Except String String := fun _ _ => .ok "r"

/-- C8: in the interactive chat loop, every meta-command input (help, clear,
exit, quit, q, config, settings, timezone) is handled locally and never sent
to the LLM (the step outcome does not depend on the relay at all), and the
clear meta-command discards the entire ConversationHistory. -/
theorem meta_commands_handled_locally
    (currentTZ : String) (hist : History) (rawInput : String)
    (hmeta : pyLower (pyStrip rawInput) ∈
      (["help", "clear", "exit", "quit", "q", "config", "settings",
        "timezone"] : List String)) :
    (∀ turnA turnB,
      chatLoopStep currentTZ turnA hist rawInput =
        chatLoopStep currentTZ turnB hist rawInput) ∧
    (pyLower (pyStrip rawInput) = "clear" →
      ∀ turn, (chatLoopStep currentTZ turn hist rawInput).hist = []) := by
  have hne : pyStrip rawInput ≠ "" := by
    intro h
    rw [h] at hmeta
    simp [pyLower] at hmeta
  simp only [List.mem_cons, List.not_mem_nil, or_false] at hmeta
  constructor
  · intro turnA turnB
    rcases hmeta with h | h | h | h | h | h | h | h <;>
      simp [chatLoopStep, hne, h]
  · intro hclear turn
    simp [chatLoopStep, hne, hclear]

theorem meta_commands_handled_locally_witness :
    (chatLoopStep "UTC" stubTurnA [⟨Role.user, "x"⟩] " Clear " =
      chatLoopStep "UTC" stubTurnB [⟨Role.user, "x"⟩] " Clear ") ∧
    (chatLoopStep "UTC" stubTurnA [⟨Role.user, "x"⟩] " Clear ").hist = [] := by
  have h :=
    meta_commands_handled_locally "UTC" [⟨Role.user, "x"⟩] " Clear "
      (by decide)
  exact ⟨h.1 stubTurnA stubTurnB, h.2 (by decide) stubTurnA⟩

/-- C1: if an exception is raised by the LLM API or the Calendar Gateway
during a turn, only that turn is aborted: the exception message becomes the
turn's response text, the interactive session continues to the next prompt,
and the ConversationHistory retains everything appended before the failure
(the user message, plus the result of a calendar operation that had already
succeeded) while the failed operation's result is not appended. -/
theorem turn_failure_aborts_turn_only
    (llm : History → Except String LlmReply)
    (gateway : String → String → Except String String)
    (currentTZ : String) (hist : History) (rawInput : String) (e : String)
    (hne : pyStrip rawInput ≠ "")
    (hmeta : pyLower (pyStrip rawInput) ∉
      (["exit", "quit", "q", "help", "clear", "config", "settings",
        "timezone"] : List String))
    (herr : (process_message llm gateway (pyStrip rawInput) hist).result =
      .error e) :
    (chatLoopStep currentTZ (process_message llm gateway) hist rawInput).kind
      = StepKind.continued ∧
    (chatLoopStep currentTZ (process_message llm gateway) hist rawInput).output
      = ["Error: " ++ e] ∧
    (chatLoopStep currentTZ (process_message llm gateway) hist rawInput).hist
      = (process_message llm gateway (pyStrip rawInput) hist).hist ∧
    ((process_message llm gateway (pyStrip rawInput) hist).hist =
        hist ++ [⟨Role.user, pyStrip rawInput⟩] ∨
      ∃ name args res,
        llm (hist ++ [⟨Role.user, pyStrip rawInput⟩]) =
          Except.ok (LlmReply.toolCall name args) ∧
        gateway name args = Except.ok res ∧
        (process_message llm gateway (pyStrip rawInput) hist).hist =
          hist ++ [⟨Role.user, pyStrip rawInput⟩,
            ⟨Role.toolResult, res⟩]) := by
  simp only [List.mem_cons, List.not_mem_nil, or_false, not_or] at hmeta
  obtain ⟨hx1, hx2, hx3, hx4, hx5, hx6, hx7, hx8⟩ := hmeta
  have hhist :
      (process_message llm gateway (pyStrip rawInput) hist).hist =
        hist ++ [⟨Role.user, pyStrip rawInput⟩] ∨
      ∃ name args res,
        llm (hist ++ [⟨Role.user, pyStrip rawInput⟩]) =
          Except.ok (LlmReply.toolCall name args) ∧
        gateway name args = Except.ok res ∧
        (process_message llm gateway (pyStrip rawInput) hist).hist =
          hist ++ [⟨Role.user, pyStrip rawInput⟩, ⟨Role.toolResult, res⟩] := by
    cases hllm : llm (hist ++ [⟨Role.user, pyStrip rawInput⟩]) with
    | error e2 => left; simp [process_message, hllm]
    | ok r =>
      cases r with
      | text s => simp [process_message, hllm] at herr
      | toolCall n a =>
        cases hgw : gateway n a with
        | error e2 => left; simp [process_message, hllm, hgw]
        | ok res =>
          cases hllm2 : llm (hist ++ [⟨Role.user, pyStrip rawInput⟩,
              ⟨Role.toolResult, res⟩]) with
          | error e2 =>
            right
            refine ⟨n, a, res, rfl, hgw, ?_⟩
            simp [process_message, hllm, hgw, hllm2]
          | ok r2 =>
            cases r2 with
            | text s => simp [process_message, hllm, hgw, hllm2] at herr
            | toolCall n2 a2 =>
              simp [process_message, hllm, hgw, hllm2] at herr
  refine ⟨?_, ?_, ?_, hhist⟩ <;>
    simp [chatLoopStep, hne, hx1, hx2, hx3, hx4, hx5, hx6, hx7, hx8, herr]

theorem turn_failure_aborts_turn_only_witness :
    (chatLoopStep "UTC" (process_message failingLlm okGateway) [] "hi").kind
      = StepKind.continued ∧
    (chatLoopStep "UTC" (process_message failingLlm okGateway) [] "hi").output
      = ["Error: boom"] ∧
    (chatLoopStep "UTC" (process_message failingLlm okGateway) [] "hi").hist
      = (process_message failingLlm okGateway (pyStrip "hi") []).hist ∧
    ((process_message failingLlm okGateway (pyStrip "hi") []).hist =
        [] ++ [⟨Role.user, pyStrip "hi"⟩] ∨
      ∃ name args res,
        failingLlm ([] ++ [⟨Role.user, pyStrip "hi"⟩]) =
          Except.ok (LlmReply.toolCall name args) ∧
        okGateway name args = Except.ok res ∧
        (process_message failingLlm okGateway (pyStrip "hi") []).hist =
          [] ++ [⟨Role.user, pyStrip "hi"⟩, ⟨Role.toolResult, res⟩]) :=
  turn_failure_aborts_turn_only failingLlm okGateway "UTC" [] "hi" "boom"
    (by decide) (by decide) rfl

/-- Environment with a non-integer BUSINESS_HOURS_START value and the API
key present: the counterexample input for C3. -/
def envBadHours : Env := fun n =>
  if n = "BUSINESS_HOURS_START" then some "nine"
  else if n = "ANTHROPIC_API_KEY" then some "sk-test" else none

/-- C3 counterexample: configuration loading is not total on the other
settings — with the API key present, `Config.__init__` still fails because
the present BUSINESS_HOURS_START value "nine" raises in `int(...)`. -/
theorem config_load_fails_despite_key_present :
    Config.init envBadHours = none ∧
    get_api_key envBadHours false "" = some "sk-test" := by decide

/-- The five integer-typed settings of `Config.__init__` with their
defaults. -/
def intSettings : List (String × String) :=
  [("BUSINESS_HOURS_START", "9"), ("BUSINESS_HOURS_END", "17"),
   ("DEFAULT_DURATION", "60"), ("MAX_SUGGESTIONS", "5"),
   ("CLAUDE_MAX_TOKENS", "2000")]

theorem getenvD_int_isSome (env : Env) (name default : String)
    (hd : (pyInt? default).isSome)
    (hv : ∀ v, env name = some v → (pyInt? v).isSome) :
    (pyInt? (getenvD env name default)).isSome := by
  cases h : env name with
  | none => simpa [getenvD, h] using hd
  | some v => simpa [getenvD, h] using hv v h

theorem apiKeyFromFile_eq_none_iff (fe : Bool) (fc : String) :
    apiKeyFromFile fe fc = none ↔ (fe = false ∨ pyStrip fc = "") := by
  cases fe with
  | false => simp [apiKeyFromFile]
  | true => by_cases h : pyStrip fc = "" <;> simp [apiKeyFromFile, h]

/-- C3 amended: loading fails with the missing-key exit exactly when the LLM
API key is missing from every source, and a missing environment value never
causes loading to fail (each setting has a safe default); but a present
value that is not an integer literal for one of the integer-typed settings
does make `Config.__init__` raise, so the hypothesis that every present
integer-typed value parses is required. -/
theorem config_load_amended (env : Env) (fe : Bool) (fc : String)
    (hvalid : ∀ p ∈ intSettings, ∀ v, env p.1 = some v →
      (pyInt? v).isSome) :
    (Config.init env).isSome ∧
    (get_api_key env fe fc = none ↔
      ((env "ANTHROPIC_API_KEY" = none ∨
          env "ANTHROPIC_API_KEY" = some "") ∧
        (fe = false ∨ pyStrip fc = ""))) := by
  constructor
  · have h1 := getenvD_int_isSome env "BUSINESS_HOURS_START" "9"
      (by decide)
      (fun v hv => hvalid ("BUSINESS_HOURS_START", "9") (by decide) v hv)
    have h2 := getenvD_int_isSome env "BUSINESS_HOURS_END" "17"
      (by decide)
      (fun v hv => hvalid ("BUSINESS_HOURS_END", "17") (by decide) v hv)
    have h3 := getenvD_int_isSome env "DEFAULT_DURATION" "60"
      (by decide)
      (fun v hv => hvalid ("DEFAULT_DURATION", "60") (by decide) v hv)
    have h4 := getenvD_int_isSome env "MAX_SUGGESTIONS" "5"
      (by decide)
      (fun v hv => hvalid ("MAX_SUGGESTIONS", "5") (by decide) v hv)
    have h5 := getenvD_int_isSome env "CLAUDE_MAX_TOKENS" "2000"
      (by decide)
      (fun v hv => hvalid ("CLAUDE_MAX_TOKENS", "2000") (by decide) v hv)
    obtain ⟨a1, e1⟩ := Option.isSome_iff_exists.mp h1
    obtain ⟨a2, e2⟩ := Option.isSome_iff_exists.mp h2
    obtain ⟨a3, e3⟩ := Option.isSome_iff_exists.mp h3
    obtain ⟨a4, e4⟩ := Option.isSome_iff_exists.mp h4
    obtain ⟨a5, e5⟩ := Option.isSome_iff_exists.mp h5
    simp [Config.init, e1, e2, e3, e4, e5]
  · cases hk : env "ANTHROPIC_API_KEY" with
    | none => simp [get_api_key, hk, apiKeyFromFile_eq_none_iff]
    | some k =>
      by_cases hke : k = ""
      · subst hke
        simp [get_api_key, hk, apiKeyFromFile_eq_none_iff]
      · simp [get_api_key, hk, hke]

theorem config_load_amended_witness :
    (Config.init (fun _ => none)).isSome ∧
    (get_api_key (fun _ => none) false "" = none ↔
      (((none : Option String) = none ∨
          (none : Option String) = some "") ∧
        (false = false ∨ pyStrip "" = ""))) :=
  config_load_amended (fun _ => none) false ""
    (fun _ _ _ hv => Option.noConfusion hv)

end ClaudeMeet
